import Mathlib

/-!
Verification development for the SF dog-recommendation scoring engine
(`recommendersystem2.py`, class `RealDataSFDogMatcher`).

The Python source is shallowly embedded: loosely-typed pandas cell values
become the `PyVal` type, dog and neighborhood records become structures,
and the per-request mutation performed through the shared dict references
(`self.real_data['dogs'].copy()` is a shallow list copy) is made explicit
by returning the updated catalog together with the returned shortlist.
Python's stable `list.sort(key=..., reverse=True)` is modelled by
`List.insertionSort` with the relation "left element has the larger-or-equal
key", which places an earlier element before any later element of equal key,
exactly the stable descending order Python guarantees.

Numeric fields are modelled with `ℚ`.  The only rounding sites relevant to
the claims (`round(cost, 0)`) are applied to values from
{70, 95, 125, 155} optionally multiplied by 7/5, i.e. exact integers, so
Python's round-half-to-even and Mathlib's `round` agree on every reachable
input.
-/

namespace DogMatcher

/-- A loosely-typed source cell as seen by the Python code: Python bools,
strings, numbers, pandas `NaN`, and Python `None`. -/
inductive PyVal where
  | bool (b : Bool)
  | str (s : String)
  | num (q : ℚ)
  | nan
  | pynone
deriving DecidableEq

/-- Model of `pd.isna`: true exactly on `NaN` and `None`. -/
def pd_isna : PyVal → Bool
  | .nan => true
  | .pynone => true
  | _ => false

/-- Python truthiness (`bool(value)` / `if value:`): `NaN` is a non-zero
float and hence truthy; `None` and empty strings are falsy. -/
def pythonTruthy : PyVal → Bool
  | .bool b => b
  | .str s => !s.isEmpty
  | .num q => if q = 0 then false else true
  | .nan => true
  | .pynone => false

/-- Python's `str.lower()` on the character list of a string (the source
only lowercases ASCII breed names and boolean-ish tokens, on which
`Char.toLower` agrees with Python). -/
def pyLower (s : String) : List Char :=
  s.data.map Char.toLower

/-- Model of `_parse_boolean_safe` (lines 338-346): `pd.isna` → `False`; bools pass
through; strings compare lowercased against the truthy list; anything else
falls through to `return bool(value)`. -/
def parse_boolean_safe (value : PyVal) : Bool :=
  if pd_isna value then false
  else
    match value with
    | .bool b => b
    | .str s => (["true", "yes", "1", "y"].map String.data).contains (pyLower s)
    | v => pythonTruthy v

/-- Model of `_calculate_monthly_cost` (lines 302-316): `base_costs.get(size, 95)`.
The `special_needs` argument arrives raw from
`dog.get('special_needs', False)` (line 187) and is tested with plain
Python truthiness, not `_parse_boolean_safe`. -/
def calculate_monthly_cost (size : String) (special_needs : PyVal) : ℚ :=
  let cost : ℚ :=
    if size = "Small" then 70
    else if size = "Medium" then 95
    else if size = "Large" then 125
    else if size = "Extra Large" then 155
    else 95
  let cost := if pythonTruthy special_needs then cost * 1.4 else cost
  ((round cost : ℤ) : ℚ)

/-- Whether `needle` occurs as a contiguous substring of the haystack
(Python's `needle in haystack` on strings), over character lists. -/
def hasSub (needle : List Char) : List Char → Bool
  | [] => needle.isEmpty
  | c :: t => needle.isPrefixOf (c :: t) || hasSub needle t

/-- The fixed protective-breed keyword list (lines 240-241). -/
def protective_breeds : List String :=
  ["german shepherd", "pit bull", "rottweiler", "mastiff",
   "doberman", "boxer", "bulldog", "belgian", "akita"]

/-- Model of `any(pb in breed_lower for pb in protective_breeds)` (line 243). -/
def breed_is_protective (breed : String) : Bool :=
  protective_breeds.any (fun pb => hasSub pb.data (pyLower breed))

/-- Model of `_calculate_protection_score` (lines 225-252). -/
def calculate_protection_score (size breed age : String) : ℚ :=
  let score : ℚ := 40
  let score := score +
    (if size = "Large" then 30
     else if size = "Medium" then 20
     else if size = "Extra Large" then 35
     else if size = "Small" then 5
     else 0)
  let score := score + (if breed_is_protective breed then 25 else 0)
  let score := score +
    (if age = "Adult" ∨ age = "Senior" then 10
     else if age = "Young" then 5
     else 0)
  min 100 score

/-- The walkability formula of line 103:
`walkability_score = min(100, (walk_score / 20) * 100)`. -/
def walkability_score (walk_score : ℚ) : ℚ :=
  min 100 (walk_score / 20 * 100)

/-- Two-sided clamp, as the spec's `clamp(lo, hi, x)`. -/
def clamp (lo hi x : ℚ) : ℚ :=
  max lo (min hi x)

/-- The protection-need step function of lines 106-113. -/
def protection_need (safety_score : ℚ) : String :=
  if safety_score < 40 then "Very High"
  else if safety_score < 60 then "High"
  else if safety_score < 80 then "Medium"
  else "Low"

/-- Modelled from the spec's words for comparison with the code's
`protection_need`: "safety<40→VeryHigh; 40≤safety<60→High;
60≤safety<80→Medium; 80≤safety→Low", with both band edges explicit. -/
def protection_need_spec (safety_score : ℚ) : String :=
  if safety_score < 40 then "Very High"
  else if 40 ≤ safety_score ∧ safety_score < 60 then "High"
  else if 60 ≤ safety_score ∧ safety_score < 80 then "Medium"
  else "Low"

/-- Rank of a protection-need label, for stating monotonicity (a higher
rank means more protection needed). -/
def needRank (need : String) : ℕ :=
  if need = "Very High" then 3
  else if need = "High" then 2
  else if need = "Medium" then 1
  else 0

/-- One entry of `self.real_data['neighborhoods']` (lines 118-126). -/
structure NeighborhoodData where
  safety_score : ℚ
  walkability_score : ℚ
  avg_rent : ℚ
  crime_count : ℕ
  protection_need : String
  budget_limit : ℚ
  walk_index : ℚ
deriving DecidableEq

/-- One dog dict of `self.real_data['dogs']` (lines 201-217).  The four
per-request fields written by `_get_personalized_recommendations`
(lines 815-824) are absent (`none`) until a request writes them. -/
structure Dog where
  name : String
  breed : String
  size : String
  age : String
  protection_score : ℚ
  family_score : ℚ
  training_score : ℚ
  monthly_cost : ℚ
  good_with_children : Bool
  house_trained : Bool
  compatibility_score : Option ℚ := none
  safety_improvement : Option ℚ := none
  monthly_exercise : Option ℚ := none
  deterrent_effect : Option String := none
deriving DecidableEq

/-- The protection-preference dropdown values (lines 424-429); only these
four reach the scoring engine. -/
inductive ProtPref where
  | low
  | medium
  | high
  | veryHigh
deriving DecidableEq

/-- The `pref_scores` acceptance bands of `_calculate_preference_match`
(lines 858-863). -/
def pref_scores : ProtPref → ℚ × ℚ
  | .low => (0, 40)
  | .medium => (40, 70)
  | .high => (70, 85)
  | .veryHigh => (85, 100)

/-- Model of `_calculate_safety_match` (lines 830-842). -/
def calculate_safety_match (protection_need : String) (dog_protection : ℚ) : ℚ :=
  if protection_need = "Very High" then min 100 (dog_protection * 1.2)
  else if protection_need = "High" then dog_protection
  else if protection_need = "Medium" then 100 - |dog_protection - 60| * 0.5
  else if dog_protection > 40 then 100 - (dog_protection - 40) * 0.3 else 100

/-- Model of `_calculate_budget_match` (lines 844-854). -/
def calculate_budget_match (budget_limit dog_cost : ℚ) : ℚ :=
  if dog_cost ≤ budget_limit then 100
  else if dog_cost ≤ budget_limit * 1.2 then 80
  else max 0 (100 - (dog_cost - budget_limit) / budget_limit * 100)

/-- Model of `_calculate_preference_match` (lines 856-872). -/
def calculate_preference_match (protection_pref : ProtPref) (dog_score : ℚ) : ℚ :=
  if (pref_scores protection_pref).1 ≤ dog_score ∧
      dog_score ≤ (pref_scores protection_pref).2 then 100
  else
    max 0 (100 -
      min (|dog_score - (pref_scores protection_pref).1|)
        (|dog_score - (pref_scores protection_pref).2|) * 2)

/-- The per-dog writes of the scoring loop (lines 808-824): the combined
compatibility score and the three derived benefit fields. -/
def scoreDog (nd : NeighborhoodData) (protection_pref : ProtPref) (d : Dog) : Dog :=
  let safety_match := calculate_safety_match nd.protection_need d.protection_score
  let budget_match := calculate_budget_match nd.budget_limit d.monthly_cost
  let preference_match := calculate_preference_match protection_pref d.protection_score
  { d with
    compatibility_score :=
      some (safety_match * 0.4 + budget_match * 0.3 + preference_match * 0.3)
    safety_improvement := some (min 30 (d.protection_score * 0.3))
    monthly_exercise := some (60 + d.protection_score * 0.5)
    deterrent_effect :=
      some (if d.protection_score ≥ 80 then "High"
            else if d.protection_score ≥ 60 then "Medium"
            else "Low") }

/-- The size filter of lines 803-805: a dog survives iff the preference is
the wildcard `'Any'` or its size matches exactly. -/
def dogKept (size_pref : String) (d : Dog) : Bool :=
  size_pref == "Any" || d.size == size_pref

/-- Effect of one request on one shared catalog record: records passing
the size filter are scored in place through the aliased dict reference;
filtered-out records are untouched. -/
def updateDog (nd : NeighborhoodData) (size_pref : String) (protection_pref : ProtPref)
    (d : Dog) : Dog :=
  if dogKept size_pref d then scoreDog nd protection_pref d else d

/-- The sort key `lambda x: x['compatibility_score']` (line 827); every
dog reaching the sort has just been scored, so the key is present. -/
def compatKey (d : Dog) : ℚ :=
  d.compatibility_score.getD 0

/-- The relation saying the left dog sorts no later than the right dog, for the descending stable
sort of line 827. -/
def compatGE (a b : Dog) : Prop :=
  compatKey b ≤ compatKey a

instance : DecidableRel compatGE :=
  fun a b => inferInstanceAs (Decidable (compatKey b ≤ compatKey a))

instance : IsTotal Dog compatGE :=
  ⟨fun a b => le_total (compatKey b) (compatKey a)⟩

instance : IsTrans Dog compatGE :=
  ⟨fun _ _ _ h₁ h₂ => le_trans h₂ h₁⟩

/-- Python's stable `dogs.sort(key=..., reverse=True)`: equal keys keep
encounter order, larger keys first. -/
def sortByCompatDesc (l : List Dog) : List Dog :=
  l.insertionSort compatGE

/-- Model of `_get_personalized_recommendations` (lines 798-828).
`dogs = self.real_data['dogs'].copy()` copies only the list, so the
per-dog writes hit the shared records; the first component is the shared
catalog after those writes, the second the returned top five. -/
def get_personalized_recommendations (nd : NeighborhoodData) (size_pref : String)
    (protection_pref : ProtPref) (catalog : List Dog) : List Dog × List Dog :=
  (catalog.map (updateDog nd size_pref protection_pref),
   (sortByCompatDesc
      ((catalog.filter (dogKept size_pref)).map (scoreDog nd protection_pref))).take 5)

/-- The impact-metrics dict (lines 894-902). -/
structure Impact where
  current_safety_score : ℚ
  new_safety_score : ℚ
  safety_improvement : ℚ
  dogs_saved : ℕ
  monthly_walking_hours : ℚ
  deterrent_effect : String
  community_connections : String
deriving DecidableEq

/-- Model of `_calculate_impact_metrics` (lines 874-902): the empty dict for an
empty shortlist becomes `none`; otherwise the record is built from the
top-ranked dog, whose per-request fields are always present. -/
def calculate_impact_metrics (nd : NeighborhoodData) (recommended_dogs : List Dog) :
    Option Impact :=
  match recommended_dogs with
  | [] => none
  | top_dog :: _ =>
    let current_safety := nd.safety_score
    let safety_boost := top_dog.safety_improvement.getD 0
    let walking_minutes := top_dog.monthly_exercise.getD 0
    some
      { current_safety_score := current_safety
        new_safety_score := min 100 (current_safety + safety_boost)
        safety_improvement := safety_boost
        dogs_saved := recommended_dogs.length
        monthly_walking_hours := walking_minutes * 30 / 60
        deterrent_effect := top_dog.deterrent_effect.getD ""
        community_connections := if walking_minutes > 75 then "High" else "Medium" }

/-- The possible outcomes rendered by the `update_recommendations`
callback (lines 770-796): the initial prompt, the "Neighborhood Data Not
Found" card, or the results layout built from the ranked list and the
impact metrics. -/
inductive Outcome where
  | prompt
  | notFound
  | results (ranked_dogs : List Dog) (impact : Option Impact)
deriving DecidableEq

/-- The `update_recommendations` callback (lines 770-796), with the write
to the shared catalog made explicit in the first component.  Python's
`not neighborhood` is true for both `None` and the empty string. -/
def update_recommendations (data : List (String × NeighborhoodData)) (catalog : List Dog)
    (n_clicks : ℕ) (neighborhood : Option String) (size_pref : String)
    (protection_pref : ProtPref) : List Dog × Outcome :=
  if n_clicks = 0 then (catalog, .prompt)
  else
    match neighborhood with
    | none => (catalog, .prompt)
    | some name =>
      if name = "" then (catalog, .prompt)
      else
        match data.lookup name with
        | none => (catalog, .notFound)
        | some nd =>
          let r := get_personalized_recommendations nd size_pref protection_pref catalog
          (r.1, .results r.2 (calculate_impact_metrics nd r.2))

/-- A concrete neighborhood record, for witnesses: the values a
neighborhood with 60 crimes, average rent 2000 and walk index 10 gets. -/
def nd0 : NeighborhoodData :=
  { safety_score := 70, walkability_score := 50, avg_rent := 2000, crime_count := 60,
    protection_need := "Medium", budget_limit := 100, walk_index := 10 }

/-- A concrete catalog dog, for witnesses: a Medium adult mixed-breed as
the builder produces it (protection 40+20 = 60, cost 95), with empty
per-request fields. -/
def dog0 : Dog :=
  { name := "Rex", breed := "Mixed Breed", size := "Medium", age := "Adult",
    protection_score := 60, family_score := 80, training_score := 70,
    monthly_cost := 95, good_with_children := true, house_trained := true }

/-- The impact record the request `(nd0, "Any", medium)` over `[dog0]`
produces. -/
def imp0 : Impact :=
  { current_safety_score := 70, new_safety_score := 88, safety_improvement := 18,
    dogs_saved := 1, monthly_walking_hours := 45, deterrent_effect := "Medium",
    community_connections := "High" }

/- ------------------------------------------------------------------ -/
/- Theorems                                                           -/
/- ------------------------------------------------------------------ -/

/-- Each sub-score of the safety match lies in [0,100] once the dog's
protection score does. -/
theorem safety_match_bounds (need : String) (p : ℚ) (h0 : 0 ≤ p) (h100 : p ≤ 100) :
    0 ≤ calculate_safety_match need p ∧ calculate_safety_match need p ≤ 100 := by
  unfold calculate_safety_match
  split_ifs with h1 h2 h3 h4
  · exact ⟨le_min (by norm_num) (by nlinarith), min_le_left _ _⟩
  · exact ⟨h0, h100⟩
  · have habs : |p - 60| ≤ 60 := by
      rw [abs_le]; constructor <;> linarith
    have habs0 : 0 ≤ |p - 60| := abs_nonneg _
    constructor <;> nlinarith
  · constructor <;> nlinarith
  · norm_num

/-- The budget match lies in [0,100] whenever the budget limit is at
least 50 (in particular positive) and the cost is non-negative. -/
theorem budget_match_bounds (limit cost : ℚ) (hl : 50 ≤ limit) (hc : 0 ≤ cost) :
    0 ≤ calculate_budget_match limit cost ∧ calculate_budget_match limit cost ≤ 100 := by
  unfold calculate_budget_match
  split_ifs with h1 h2
  · norm_num
  · norm_num
  · push_neg at h1 h2
    have hpos : (0:ℚ) < limit := by linarith
    have hnum : 0 ≤ (cost - limit) / limit * 100 := by
      have : 0 ≤ cost - limit := by linarith
      positivity
    exact ⟨le_max_left _ _, max_le (by norm_num) (by linarith)⟩

/-- The preference match always lies in [0,100]. -/
theorem preference_match_bounds (pref : ProtPref) (p : ℚ) :
    0 ≤ calculate_preference_match pref p ∧ calculate_preference_match pref p ≤ 100 := by
  unfold calculate_preference_match
  split_ifs
  · norm_num
  · have hmin : 0 ≤ min (|p - (pref_scores pref).1|) (|p - (pref_scores pref).2|) :=
      le_min (abs_nonneg _) (abs_nonneg _)
    exact ⟨le_max_left _ _, max_le (by norm_num) (by linarith)⟩

/-- C2: `_calculate_monthly_cost` is fed the raw `special_needs` cell and
tests it with Python truthiness, so a `NaN` cell (truthy) inflates the
cost to 133 even though the boolean-coercion rule
(`_parse_boolean_safe`) coerces `NaN` to false. -/
theorem monthly_cost_nan_inflates :
    calculate_monthly_cost "Medium" PyVal.nan = 133 ∧
      parse_boolean_safe PyVal.nan = false := by
  constructor
  · simp [calculate_monthly_cost, pythonTruthy]
    norm_num [round_eq]
  · rfl

/-- C3 counterexample: line 103 only clamps from above; at walk index
−20 the walkability score is −100, not the two-sided clamp value 0. -/
theorem walkability_negative_counterexample :
    walkability_score (-20) = -100 ∧
      walkability_score (-20) ≠ clamp 0 100 ((-20) / 20 * 100) := by
  constructor <;> norm_num [walkability_score, clamp, min_def, max_def]

/-- C3 amended: walkability is `min(100, walk_score/20·100)` — bounded
above by 100 for every walk index, and equal to the claimed two-sided
clamp (hence in [0,100]) only for non-negative walk indices. -/
theorem walkability_amended (w : ℚ) :
    walkability_score w ≤ 100 ∧
      (0 ≤ w → walkability_score w = clamp 0 100 (w / 20 * 100) ∧
        0 ≤ walkability_score w) := by
  refine ⟨min_le_left _ _, fun hw => ?_⟩
  have h0 : 0 ≤ min 100 (w / 20 * 100) := le_min (by norm_num) (by positivity)
  constructor
  · unfold walkability_score clamp
    rw [max_eq_right h0]
  · exact h0

/-- Witness for the amended C3 statement at walk index 10. -/
theorem walkability_amended_witness :
    walkability_score 10 ≤ 100 ∧
      (walkability_score 10 = clamp 0 100 (10 / 20 * 100) ∧ 0 ≤ walkability_score 10) :=
  ⟨(walkability_amended 10).1, (walkability_amended 10).2 (by norm_num)⟩

/-- C4 counterexample: the final `return bool(value)` of
`_parse_boolean_safe` makes the nonzero number 2 parse as true, not
false as claimed for non-string non-boolean inputs. -/
theorem parse_boolean_nonzero_counterexample :
    parse_boolean_safe (PyVal.num 2) = true := rfl

/-- C4 amended: `_parse_boolean_safe` is true exactly for boolean true,
strings whose lowercasing is one of "true"/"yes"/"1"/"y", and non-zero
numbers; `NaN`, `None`, boolean false, other strings and zero give
false. -/
theorem parse_boolean_characterization (v : PyVal) :
    parse_boolean_safe v = true ↔
      (v = PyVal.bool true ∨
        (∃ s, v = PyVal.str s ∧
          (["true", "yes", "1", "y"].map String.data).contains (pyLower s) = true) ∨
        (∃ q, v = PyVal.num q ∧ q ≠ 0)) := by
  cases v <;> simp [parse_boolean_safe, pd_isna, pythonTruthy]

/-- C5: the protection-need step function of lines 106-113 matches the
spec's banded step function, yields High/Medium/Low exactly at the 40/60/
80 boundaries, and is monotonically non-increasing in the safety score. -/
theorem protection_need_matches_spec :
    (∀ s : ℚ, protection_need s = protection_need_spec s) ∧
      protection_need 40 = "High" ∧
      protection_need 60 = "Medium" ∧
      protection_need 80 = "Low" ∧
      (∀ s t : ℚ, s ≤ t →
        needRank (protection_need t) ≤ needRank (protection_need s)) := by
  refine ⟨fun s => ?_, rfl, rfl, rfl, fun s t hst => ?_⟩
  · unfold protection_need protection_need_spec
    rcases lt_or_le s 40 with h40 | h40
    · rw [if_pos h40, if_pos h40]
    · rw [if_neg (not_lt.mpr h40), if_neg (not_lt.mpr h40)]
      rcases lt_or_le s 60 with h60 | h60
      · rw [if_pos h60, if_pos ⟨h40, h60⟩]
      · have hb1 : ¬(40 ≤ s ∧ s < 60) := fun h => absurd h.2 (not_lt.mpr h60)
        rw [if_neg (not_lt.mpr h60), if_neg hb1]
        rcases lt_or_le s 80 with h80 | h80
        · rw [if_pos h80, if_pos ⟨h60, h80⟩]
        · have hb2 : ¬(60 ≤ s ∧ s < 80) := fun h => absurd h.2 (not_lt.mpr h80)
          rw [if_neg (not_lt.mpr h80), if_neg hb2]
  · unfold protection_need
    split_ifs <;> simp [needRank] <;> first | omega | linarith

/-- Witness for C5 at concrete inputs (boundary 40 and the pair 30 ≤ 50). -/
theorem protection_need_matches_spec_witness :
    protection_need 40 = protection_need_spec 40 ∧
      (30:ℚ) ≤ 50 ∧
      needRank (protection_need 50) ≤ needRank (protection_need 30) :=
  ⟨protection_need_matches_spec.1 40, by norm_num,
    protection_need_matches_spec.2.2.2.2 30 50 (by norm_num)⟩

/-- C6: the compatibility score written by the scoring loop is the fixed
weighted sum 0.4·safety + 0.3·budget + 0.3·preference, and lies in
[0,100] whenever the dog's protection score is in [0,100], its cost is
non-negative and the neighborhood budget limit is at least 50. -/
theorem compatibility_score_formula_and_bounds (nd : NeighborhoodData) (pref : ProtPref)
    (d : Dog) (h0 : 0 ≤ d.protection_score) (h100 : d.protection_score ≤ 100)
    (hcost : 0 ≤ d.monthly_cost) (hbudget : 50 ≤ nd.budget_limit) :
    ∃ c, (scoreDog nd pref d).compatibility_score = some c ∧
      c = 0.4 * calculate_safety_match nd.protection_need d.protection_score +
          0.3 * calculate_budget_match nd.budget_limit d.monthly_cost +
          0.3 * calculate_preference_match pref d.protection_score ∧
      0 ≤ c ∧ c ≤ 100 := by
  obtain ⟨hs0, hs1⟩ := safety_match_bounds nd.protection_need d.protection_score h0 h100
  obtain ⟨hb0, hb1⟩ := budget_match_bounds nd.budget_limit d.monthly_cost hbudget hcost
  obtain ⟨hp0, hp1⟩ := preference_match_bounds pref d.protection_score
  refine ⟨calculate_safety_match nd.protection_need d.protection_score * 0.4 +
      calculate_budget_match nd.budget_limit d.monthly_cost * 0.3 +
      calculate_preference_match pref d.protection_score * 0.3,
      by simp [scoreDog], by ring, by linarith, by linarith⟩

/-- Witness for C6 at the concrete request `(nd0, medium, dog0)`. -/
theorem compatibility_score_formula_and_bounds_witness :
    (0:ℚ) ≤ dog0.protection_score ∧ dog0.protection_score ≤ 100 ∧
      (0:ℚ) ≤ dog0.monthly_cost ∧ (50:ℚ) ≤ nd0.budget_limit ∧
      ∃ c, (scoreDog nd0 ProtPref.medium dog0).compatibility_score = some c ∧
        c = 0.4 * calculate_safety_match nd0.protection_need dog0.protection_score +
            0.3 * calculate_budget_match nd0.budget_limit dog0.monthly_cost +
            0.3 * calculate_preference_match ProtPref.medium dog0.protection_score ∧
        0 ≤ c ∧ c ≤ 100 :=
  ⟨by norm_num [dog0], by norm_num [dog0], by norm_num [dog0], by norm_num [nd0],
    compatibility_score_formula_and_bounds nd0 ProtPref.medium dog0
      (by norm_num [dog0]) (by norm_num [dog0]) (by norm_num [dog0]) (by norm_num [nd0])⟩

/-- Scoring does not touch the size field. -/
theorem scoreDog_size (nd : NeighborhoodData) (pref : ProtPref) (d : Dog) :
    (scoreDog nd pref d).size = d.size := rfl

/-- Scoring does not touch the protection score. -/
theorem scoreDog_protection (nd : NeighborhoodData) (pref : ProtPref) (d : Dog) :
    (scoreDog nd pref d).protection_score = d.protection_score := rfl

/-- Scoring reads only construction-time fields, so re-scoring a scored
record overwrites the per-request fields with the same values. -/
theorem scoreDog_idem (nd : NeighborhoodData) (pref : ProtPref) (d : Dog) :
    scoreDog nd pref (scoreDog nd pref d) = scoreDog nd pref d := rfl

/-- The size filter is insensitive to the per-request writes. -/
theorem dogKept_scoreDog (sp : String) (nd : NeighborhoodData) (pref : ProtPref) (d : Dog) :
    dogKept sp (scoreDog nd pref d) = dogKept sp d := rfl

/-- The per-record catalog effect of a request is idempotent. -/
theorem updateDog_idem (nd : NeighborhoodData) (sp : String) (pref : ProtPref) (d : Dog) :
    updateDog nd sp pref (updateDog nd sp pref d) = updateDog nd sp pref d := by
  unfold updateDog
  by_cases h : dogKept sp d = true
  · rw [if_pos h, if_pos (by rw [dogKept_scoreDog]; exact h), scoreDog_idem]
  · rw [if_neg h, if_neg h]

/-- Filtering an updated catalog picks out exactly the scored versions of
the originally kept records. -/
theorem filter_map_updateDog (nd : NeighborhoodData) (sp : String) (pref : ProtPref) :
    ∀ l : List Dog,
      (l.map (updateDog nd sp pref)).filter (dogKept sp) =
        (l.filter (dogKept sp)).map (scoreDog nd pref)
  | [] => rfl
  | d :: l => by
    have ih := filter_map_updateDog nd sp pref l
    by_cases h : dogKept sp d = true
    · simp only [List.map_cons, List.filter_cons, updateDog, h, if_true,
        dogKept_scoreDog, ih]
    · simp only [List.map_cons, List.filter_cons, updateDog, h, if_false,
        dogKept_scoreDog, ih, Bool.false_eq_true]

/-- C9: re-running the same request on the catalog state left behind by a
first run returns the same updated catalog and the same ranked list, and
hence the same impact metrics: the request is deterministic and
idempotent on the shared state. -/
theorem recommendation_request_deterministic (nd : NeighborhoodData) (sp : String)
    (pref : ProtPref) (catalog : List Dog) :
    get_personalized_recommendations nd sp pref
        (get_personalized_recommendations nd sp pref catalog).1 =
      get_personalized_recommendations nd sp pref catalog ∧
    calculate_impact_metrics nd
        (get_personalized_recommendations nd sp pref
          (get_personalized_recommendations nd sp pref catalog).1).2 =
      calculate_impact_metrics nd
        (get_personalized_recommendations nd sp pref catalog).2 := by
  have hmain : get_personalized_recommendations nd sp pref
      (catalog.map (updateDog nd sp pref)) =
      get_personalized_recommendations nd sp pref catalog := by
    unfold get_personalized_recommendations
    have huu : List.map (updateDog nd sp pref ∘ updateDog nd sp pref) catalog =
        List.map (updateDog nd sp pref) catalog :=
      List.map_congr_left (fun d _ => updateDog_idem nd sp pref d)
    have hss : List.map (scoreDog nd pref ∘ scoreDog nd pref)
          (catalog.filter (dogKept sp)) =
        List.map (scoreDog nd pref) (catalog.filter (dogKept sp)) :=
      List.map_congr_left (fun d _ => scoreDog_idem nd pref d)
    rw [List.map_map, huu, filter_map_updateDog, List.map_map, hss]
  exact ⟨hmain, congrArg (fun l => calculate_impact_metrics nd l) (congrArg Prod.snd hmain)⟩

/-- Inserting a record into a list places it before every record of equal
key, so the key-`c` records of the result are the inserted record (when
its key is `c`) followed by the key-`c` records of the original list. -/
theorem filter_key_orderedInsert (c : ℚ) (x : Dog) :
    ∀ l : List Dog,
      (List.orderedInsert compatGE x l).filter (fun d => compatKey d == c) =
        if compatKey x == c then x :: l.filter (fun d => compatKey d == c)
        else l.filter (fun d => compatKey d == c)
  | [] => by
    by_cases px : (compatKey x == c) = true <;>
      simp [List.orderedInsert, List.filter_cons, px]
  | y :: l => by
    have ih := filter_key_orderedInsert c x l
    by_cases hr : compatGE x y
    · simp only [List.orderedInsert, if_pos hr, List.filter_cons]
    · have hxy : compatKey x < compatKey y := lt_of_not_le hr
      by_cases px : (compatKey x == c) = true
      · have hxc : compatKey x = c := by simpa using px
        have pyc : (compatKey y == c) = false := by
          simp only [beq_eq_false_iff_ne, ne_eq]
          intro hyc
          rw [hyc, ← hxc] at hxy
          exact lt_irrefl _ hxy
        simp only [List.orderedInsert, if_neg hr, List.filter_cons, ih, px, pyc,
          if_true, Bool.false_eq_true, if_false]
      · have px' : (compatKey x == c) = false := by
          simpa using px
        simp only [List.orderedInsert, if_neg hr, List.filter_cons, ih, px',
          Bool.false_eq_true, if_false]

/-- Stability of the descending sort: for every key value, the records
carrying that key appear in the sorted list in their original encounter
order. -/
theorem filter_key_sortByCompatDesc (c : ℚ) :
    ∀ l : List Dog,
      (sortByCompatDesc l).filter (fun d => compatKey d == c) =
        l.filter (fun d => compatKey d == c)
  | [] => rfl
  | x :: l => by
    have ih := filter_key_sortByCompatDesc c l
    show (List.orderedInsert compatGE x (sortByCompatDesc l)).filter _ = _
    rw [filter_key_orderedInsert]
    by_cases px : (compatKey x == c) = true
    · rw [if_pos px, ih, List.filter_cons, if_pos px]
    · rw [if_neg px, ih, List.filter_cons, if_neg px]

/-- C7: the ranker keeps a dog iff the size preference is the wildcard
`'Any'` or the size matches exactly; the returned list is the first five
of a stably descending-sorted permutation of the scored kept dogs (ties
keep encounter order), and its length is `min 5` of the kept count. -/
theorem ranker_filters_sorts_truncates (nd : NeighborhoodData) (size_pref : String)
    (pref : ProtPref) (catalog : List Dog) :
    (∀ d, d ∈ catalog.filter (dogKept size_pref) ↔
        d ∈ catalog ∧ (size_pref = "Any" ∨ d.size = size_pref)) ∧
    (get_personalized_recommendations nd size_pref pref catalog).2 =
      (sortByCompatDesc
        ((catalog.filter (dogKept size_pref)).map (scoreDog nd pref))).take 5 ∧
    List.Perm
      (sortByCompatDesc ((catalog.filter (dogKept size_pref)).map (scoreDog nd pref)))
      ((catalog.filter (dogKept size_pref)).map (scoreDog nd pref)) ∧
    List.Sorted compatGE
      (sortByCompatDesc ((catalog.filter (dogKept size_pref)).map (scoreDog nd pref))) ∧
    (∀ c : ℚ,
      (sortByCompatDesc
          ((catalog.filter (dogKept size_pref)).map (scoreDog nd pref))).filter
          (fun d => compatKey d == c) =
        ((catalog.filter (dogKept size_pref)).map (scoreDog nd pref)).filter
          (fun d => compatKey d == c)) ∧
    (get_personalized_recommendations nd size_pref pref catalog).2.length =
      min 5 ((catalog.filter (dogKept size_pref)).map (scoreDog nd pref)).length := by
  refine ⟨fun d => ?_, rfl, List.perm_insertionSort _ _, List.sorted_insertionSort _ _,
    fun c => filter_key_sortByCompatDesc c _, ?_⟩
  · simp [List.mem_filter, dogKept, or_comm]
  · show ((sortByCompatDesc _).take 5).length = _
    rw [List.length_take, sortByCompatDesc,
      (List.perm_insertionSort compatGE _).length_eq]

/-- C8: the callback returns the explicit not-found outcome for a
neighborhood absent from the catalog, and an empty ranked list together
with empty impact metrics when no dogs survive the size filter; neither
case is an error. -/
theorem recommend_not_found_and_empty (data : List (String × NeighborhoodData))
    (catalog : List Dog) (n_clicks : ℕ) (name : String) (size_pref : String)
    (pref : ProtPref) :
    (n_clicks ≠ 0 → name ≠ "" → data.lookup name = none →
      (update_recommendations data catalog n_clicks (some name) size_pref pref).2 =
        Outcome.notFound) ∧
    (∀ nd, n_clicks ≠ 0 → name ≠ "" → data.lookup name = some nd →
      catalog.filter (dogKept size_pref) = [] →
      (update_recommendations data catalog n_clicks (some name) size_pref pref).2 =
        Outcome.results [] none) := by
  constructor
  · intro hn hname hlook
    simp [update_recommendations, hn, hname, hlook]
  · intro nd hn hname hlook hfilter
    simp [update_recommendations, hn, hname, hlook, get_personalized_recommendations,
      hfilter, sortByCompatDesc, calculate_impact_metrics]

/-- Witness for C8: neighborhood "B" is absent from a one-entry catalog;
and with size preference Large no Medium dog survives the filter. -/
theorem recommend_not_found_and_empty_witness :
    (update_recommendations [("A", nd0)] [dog0] 1 (some "B") "Any" ProtPref.medium).2 =
        Outcome.notFound ∧
    (update_recommendations [("A", nd0)] [dog0] 1 (some "A") "Large" ProtPref.medium).2 =
        Outcome.results [] none :=
  ⟨(recommend_not_found_and_empty [("A", nd0)] [dog0] 1 "B" "Any" ProtPref.medium).1
      (by norm_num) (by simp) (by simp [List.lookup]),
   (recommend_not_found_and_empty [("A", nd0)] [dog0] 1 "A" "Large" ProtPref.medium).2 nd0
      (by norm_num) (by simp) (by simp [List.lookup]) (by simp [dogKept, dog0])⟩

/-- C1 (shared-state effect at a failing input):
`dogs = self.real_data['dogs'].copy()` copies only the list, so the
request writes its per-request fields into the shared catalog record:
after one request over the one-dog catalog `[dog0]` the shared catalog no
longer equals its construction-time state — the record now carries
`compatibility_score = 100`. -/
theorem shared_catalog_mutated :
    (get_personalized_recommendations nd0 "Any" ProtPref.medium [dog0]).1 ≠ [dog0] ∧
      ((get_personalized_recommendations nd0 "Any" ProtPref.medium [dog0]).1.map
          Dog.compatibility_score) = [some 100] := by
  constructor
  · simp [get_personalized_recommendations, updateDog, dogKept, scoreDog, dog0]
  · simp [get_personalized_recommendations, updateDog, dogKept, scoreDog, dog0, nd0,
      calculate_safety_match, calculate_budget_match, calculate_preference_match,
      pref_scores]
    norm_num

/-- C10: every dog built by the profile builder has protection score at
least 40 (base 40 plus only non-negative bonuses, clamped at 100 from
above only); hence every scored dog has monthly exercise above 75, and
the impact record of any non-empty recommendation list over such a
catalog always reports community connections "High" — the "Medium"
branch is unreachable. -/
theorem protection_floor_and_community_high :
    (∀ size breed age, (40:ℚ) ≤ calculate_protection_score size breed age) ∧
    (∀ (nd : NeighborhoodData) (pref : ProtPref) (d : Dog),
      (40:ℚ) ≤ d.protection_score →
      (75:ℚ) < (scoreDog nd pref d).monthly_exercise.getD 0) ∧
    (∀ (nd : NeighborhoodData) (size_pref : String) (pref : ProtPref)
        (catalog : List Dog),
      (∀ d ∈ catalog, (40:ℚ) ≤ d.protection_score) →
      ∀ imp, calculate_impact_metrics nd
          (get_personalized_recommendations nd size_pref pref catalog).2 = some imp →
        imp.community_connections = "High") := by
  have hex : ∀ (nd : NeighborhoodData) (pref : ProtPref) (d : Dog),
      (40:ℚ) ≤ d.protection_score →
      (75:ℚ) < (scoreDog nd pref d).monthly_exercise.getD 0 := by
    intro nd pref d hd
    simp only [scoreDog, Option.getD_some]
    linarith
  refine ⟨?_, hex, ?_⟩
  · intro size breed age
    simp only [calculate_protection_score]
    refine le_min (by norm_num) ?_
    split_ifs <;> norm_num
  · intro nd size_pref pref catalog hcat imp himp
    rcases hLeq : (get_personalized_recommendations nd size_pref pref catalog).2 with
      _ | ⟨top, rest⟩
    · rw [hLeq] at himp
      simp [calculate_impact_metrics] at himp
    · rw [hLeq] at himp
      have h1 : top ∈ (get_personalized_recommendations nd size_pref pref catalog).2 := by
        rw [hLeq]; exact List.mem_cons_self _ _
      have h1' : top ∈ (sortByCompatDesc
          ((catalog.filter (dogKept size_pref)).map (scoreDog nd pref))).take 5 := h1
      have h2 := List.take_subset 5
        (sortByCompatDesc ((catalog.filter (dogKept size_pref)).map (scoreDog nd pref))) h1'
      rw [sortByCompatDesc, List.mem_insertionSort] at h2
      obtain ⟨d, hdf, hde⟩ := List.mem_map.mp h2
      have hdcat : d ∈ catalog := (List.mem_filter.mp hdf).1
      have hwalk : (75:ℚ) < top.monthly_exercise.getD 0 := by
        rw [← hde]; exact hex nd pref d (hcat d hdcat)
      simp only [calculate_impact_metrics] at himp
      injection himp with h
      rw [← h]
      show (if top.monthly_exercise.getD 0 > 75 then "High" else "Medium") = "High"
      rw [if_pos hwalk]

/-- Witness for C10 at the concrete one-dog catalog `[dog0]`. -/
theorem protection_floor_and_community_high_witness :
    (40:ℚ) ≤ calculate_protection_score "Medium" "Mixed Breed" "Adult" ∧
      ((40:ℚ) ≤ dog0.protection_score ∧
        (75:ℚ) < (scoreDog nd0 ProtPref.medium dog0).monthly_exercise.getD 0) ∧
      imp0.community_connections = "High" :=
  ⟨protection_floor_and_community_high.1 "Medium" "Mixed Breed" "Adult",
   ⟨by norm_num [dog0],
    protection_floor_and_community_high.2.1 nd0 ProtPref.medium dog0 (by norm_num [dog0])⟩,
   protection_floor_and_community_high.2.2 nd0 "Any" ProtPref.medium [dog0]
      (by intro d hd; simp at hd; rw [hd]; norm_num [dog0]) imp0 (by
        simp [get_personalized_recommendations, updateDog, dogKept, scoreDog, dog0, nd0,
          calculate_safety_match, calculate_budget_match, calculate_preference_match,
          pref_scores, sortByCompatDesc, calculate_impact_metrics, imp0]
        norm_num)⟩

end DogMatcher
